import Mathlib

/-!
# Verification of the ChatWidget controller (static/js/main.js)

A shallow embedding of the browser-side chat widget: the DOM message log,
the question-input / send / reload controls and the stats display become an
explicit `State`; each event handler of the script becomes a pure state
transformer; the asynchronous resolution of a fetch becomes a separate
resolve function applied to the outcome (a parsed JSON response or a
network error).  JavaScript strings are Lean `String`s; the few relevant
JavaScript quirks (truthiness of `0`, `||` on a possibly-missing field,
template interpolation of `undefined`) are modelled explicitly.
-/

/-- The three message kinds used by `addMessage` (the CSS class `message <type>`). -/
inductive MsgKind
  | user
  | assistant
  | system
deriving DecidableEq, Repr

/-- A rendered chat-log entry: its kind, its rendered markup (`innerHTML`
after the newline substitution) and, when the DOM node was given an id
attribute `msg-<id>`, that id. -/
structure Message where
  kind : MsgKind
  html : String
  msgId : Option Nat
deriving DecidableEq, Repr

/-- The tag the script substitutes for each newline, as a character list. -/
def brTag : List Char := ['<', 'b', 'r', '>']

/-- Embedding of `content.replace(/\n/g, '<br>')` on the character list:
every newline character is replaced by the four characters of `<br>`. -/
def renderNewlines : List Char → List Char
  | [] => []
  | c :: cs => if c = '\n' then brTag ++ renderNewlines cs else c :: renderNewlines cs

/-- Embedding of `content.replace(/\n/g, '<br>')` on strings. -/
def render (s : String) : String := String.mk (renderNewlines s.data)

/-- Split a character list at each newline: the maximal newline-free
segments, in order.  Used to state what the newline substitution preserves. -/
def splitNl : List Char → List (List Char)
  | [] => [[]]
  | c :: cs =>
    if c = '\n' then [] :: splitNl cs
    else
      match splitNl cs with
      | [] => [[c]]
      | seg :: segs => (c :: seg) :: segs

/-- Join segments with a separator (no trailing separator). -/
def joinWith (sep : List Char) : List (List Char) → List Char
  | [] => []
  | [seg] => seg
  | seg :: segs => seg ++ sep ++ joinWith sep segs

/-- JavaScript whitespace characters relevant to `String.prototype.trim`
for the inputs this widget sees. -/
def isJsWhitespace (c : Char) : Bool :=
  c = ' ' || c = '\t' || c = '\n' || c = '\r' || c = '\x0b' || c = '\x0c'

/-- Embedding of `questionInput.value.trim()`: drop whitespace from both ends. -/
def jsTrim (s : String) : String :=
  String.mk (((s.data.dropWhile isJsWhitespace).reverse.dropWhile isJsWhitespace).reverse)

/-- JavaScript truthiness of the optional `id` argument of `addMessage`:
`null` (here `none`) and the number `0` are falsy, every other number is
truthy. -/
def idTruthy : Option Nat → Bool
  | none => false
  | some n => n != 0

/-- Embedding of the body of `addMessage`: build the rendered entry.  The
DOM id `msg-<id>` is assigned only under `if (id)`, i.e. only when the
supplied id is truthy. -/
def mkMessage (type : MsgKind) (content : String) (id : Option Nat) : Message :=
  { kind := type
    html := render content
    msgId := if idTruthy id then id else none }

/-- The whole mutable surface the script touches: the chat log, the value
and disabled flags of the controls, the reload-control label, the stats
display text, whether the question input holds focus, and bookkeeping for
the at-most-one in-flight request of each fetch the script issues. -/
structure State where
  log : List Message
  inputValue : String
  inputDisabled : Bool
  sendDisabled : Bool
  reloadDisabled : Bool
  reloadLabel : String
  stats : String
  focused : Bool
  pendingAsk : Option (String × Nat)
  pendingReload : Bool
deriving DecidableEq, Repr

/-- The page as delivered: empty log, empty input, all controls enabled,
reload control labelled with its original text. -/
def initState : State :=
  { log := []
    inputValue := ""
    inputDisabled := false
    sendDisabled := false
    reloadDisabled := false
    reloadLabel := "Recharger la documentation"
    stats := ""
    focused := false
    pendingAsk := none
    pendingReload := false }

/-- Embedding of `addMessage(type, content, id)` as a state transformer:
append the rendered entry to the end of the log. -/
def addMessage (type : MsgKind) (content : String) (id : Option Nat) (s : State) : State :=
  { s with log := s.log ++ [mkMessage type content id] }

/-- Remove the first entry carrying DOM id `msg-<id>` (document order), as
`document.getElementById` finds the first such element. -/
def removeFirstById (id : Nat) : List Message → List Message
  | [] => []
  | m :: rest => if m.msgId = some id then rest else m :: removeFirstById id rest

/-- Embedding of `removeMessage(id)`: delete the entry found by
`getElementById` if present, no-op otherwise. -/
def removeMessage (id : Nat) (s : State) : State :=
  { s with log := removeFirstById id s.log }

/-- The parsed JSON of an `/api/ask` response: `success`, the `answer`
string of a successful response, and the possibly missing `error` field. -/
structure AskResponse where
  success : Bool
  answer : String
  error : Option String
deriving DecidableEq, Repr

/-- How a pending `/api/ask` fetch terminates: a parsed response, or a
rejection of the promise chain (network failure). -/
inductive AskOutcome
  | response (d : AskResponse)
  | networkError
deriving DecidableEq, Repr

/-- Embedding of `data.error || 'Problème inconnu'`: a missing field and
the empty string are falsy, so both yield the default. -/
def jsOr (e : Option String) (dflt : String) : String :=
  match e with
  | none => dflt
  | some s => if s = "" then dflt else s

/-- Embedding of the synchronous prefix of `sendQuestion` (everything up
to and including issuing the POST): trim the input; return unchanged when
the trimmed value is empty; otherwise append the user message, clear and
disable the input, disable the send control, append the loading
placeholder tagged with `Date.now()` (the `now` argument) and record the
in-flight request. -/
def sendQuestionStart (now : Nat) (s : State) : State :=
  let question := jsTrim s.inputValue
  if question = "" then s
  else
    let s1 := addMessage .user question none s
    let s2 := { s1 with inputValue := "", inputDisabled := true, sendDisabled := true }
    let s3 := addMessage .assistant "Recherche en cours..." (some now) s2
    { s3 with pendingAsk := some (question, now) }

/-- Embedding of the `.then`/`.catch` handlers of the `/api/ask` fetch:
remove the loading placeholder, append the terminal entry (assistant
answer on `success`, `system` error otherwise, generic connection error on
network failure), re-enable the controls and focus the input. -/
def askResolve (now : Nat) (o : AskOutcome) (s : State) : State :=
  match o with
  | .response d =>
    let s1 := removeMessage now s
    let s2 :=
      if d.success then addMessage .assistant d.answer none s1
      else addMessage .system ("Erreur: " ++ jsOr d.error "Problème inconnu") none s1
    { s2 with inputDisabled := false, sendDisabled := false, focused := true,
              pendingAsk := none }
  | .networkError =>
    let s1 := removeMessage now s
    let s2 := addMessage .system "Erreur de connexion. Veuillez réessayer." none s1
    { s2 with inputDisabled := false, sendDisabled := false, focused := true,
              pendingAsk := none }

/-- The parsed JSON of an `/api/reload` response; `sections_count` is kept
optional because the failure shape may omit it. -/
structure ReloadResponse where
  success : Bool
  sections_count : Option Nat
deriving DecidableEq, Repr

/-- How a pending `/api/reload` fetch terminates. -/
inductive ReloadOutcome
  | response (d : ReloadResponse)
  | networkError
deriving DecidableEq, Repr

/-- JavaScript template interpolation of a possibly-missing numeric field:
an absent field prints as `undefined`. -/
def jsNumToString (n : Option Nat) : String :=
  match n with
  | none => "undefined"
  | some k => toString k

/-- Embedding of the synchronous prefix of `reloadDocuments`: disable the
reload control, relabel it to the in-progress label, append the start
message and record the in-flight request. -/
def reloadStart (s : State) : State :=
  let s1 := { s with reloadDisabled := true, reloadLabel := "Chargement en cours..." }
  let s2 := addMessage .system "Rechargement de la documentation en cours..." none s1
  { s2 with pendingReload := true }

/-- Embedding of the `.then`/`.catch` handlers of the `/api/reload` fetch.
Note that in the `.then` handler the stats update
`statsDiv.textContent = ...data.sections_count...` runs after the
`if (data.success)` branch unconditionally, also on `success:false`. -/
def reloadResolve (o : ReloadOutcome) (s : State) : State :=
  match o with
  | .response d =>
    let s1 :=
      if d.success then
        addMessage .system
          ("Rechargement terminé. " ++ jsNumToString d.sections_count ++
            " sections disponibles.") none s
      else addMessage .system "Erreur lors du rechargement de la documentation." none s
    { s1 with stats := jsNumToString d.sections_count ++ " sections de documentation disponibles"
              reloadDisabled := false
              reloadLabel := "Recharger la documentation"
              pendingReload := false }
  | .networkError =>
    let s1 := addMessage .system "Erreur de connexion lors du rechargement." none s
    { s1 with reloadDisabled := false
              reloadLabel := "Recharger la documentation"
              pendingReload := false }

/-- The parsed JSON of an `/api/stats` response. -/
structure StatsResponse where
  success : Bool
  sections_count : Option Nat
deriving DecidableEq, Repr

/-- How the startup `/api/stats` fetch terminates. -/
inductive StatsOutcome
  | response (d : StatsResponse)
  | networkError
deriving DecidableEq, Repr

/-- Embedding of the `loadStats` handlers. -/
def loadStatsResolve (o : StatsOutcome) (s : State) : State :=
  match o with
  | .response d =>
    if d.success then
      { s with stats := jsNumToString d.sections_count ++ " sections de documentation disponibles" }
    else { s with stats := "Erreur lors du chargement des statistiques" }
  | .networkError => { s with stats := "Erreur de connexion" }

/-- Embedding of the `keypress` listener on the question input:
`if (e.key === 'Enter') sendQuestion();`. -/
def handleKeypress (key : String) (now : Nat) (s : State) : State :=
  if key = "Enter" then sendQuestionStart now s else s

/-- Embedding of the `click` listener on the send control. -/
def handleSendClick (now : Nat) (s : State) : State :=
  sendQuestionStart now s

/-- One externally observable side effect of `sendQuestion`, in the order
the script performs them.  `postAsk q` stands for issuing the
`POST /api/ask` whose JSON body carries `q` as its `question` field. -/
inductive Effect
  | appendMsg (m : Message)
  | setInputValue (v : String)
  | setInputDisabled (b : Bool)
  | setSendDisabled (b : Bool)
  | postAsk (question : String)
deriving DecidableEq, Repr

/-- The side effects of one `sendQuestion` call, in program order: read
straight off the body of the function. -/
def sendQuestionEffects (now : Nat) (s : State) : List Effect :=
  let question := jsTrim s.inputValue
  if question = "" then []
  else
    [ .appendMsg (mkMessage .user question none),
      .setInputValue "",
      .setInputDisabled true,
      .setSendDisabled true,
      .appendMsg (mkMessage .assistant "Recherche en cours..." (some now)),
      .postAsk question ]

/-- Interpretation of a single effect on the state; `now` is the
correlation id `Date.now()` of the call, used to record the in-flight
request a `postAsk` creates. -/
def applyEffect (now : Nat) (e : Effect) (s : State) : State :=
  match e with
  | .appendMsg m => { s with log := s.log ++ [m] }
  | .setInputValue v => { s with inputValue := v }
  | .setInputDisabled b => { s with inputDisabled := b }
  | .setSendDisabled b => { s with sendDisabled := b }
  | .postAsk q => { s with pendingAsk := some (q, now) }

/-- Interpretation of an effect list, left to right. -/
def applyEffects (now : Nat) (es : List Effect) (s : State) : State :=
  es.foldl (fun st e => applyEffect now e st) s

/-- The user-interaction and response events the page can receive.  A
click on a disabled control fires no handler, a disabled input receives no
keypress, and a response event requires the matching fetch to be in
flight; these guards live in `stepFn`. -/
inductive Event
  | setInput (v : String)
  | clickSend (now : Nat)
  | pressKey (key : String) (now : Nat)
  | clickReload
  | askResponse (o : AskOutcome)
  | reloadResponse (o : ReloadOutcome)

/-- One step of the event-driven controller: `none` when the event cannot
fire in the given state (disabled control, no pending request). -/
def stepFn (e : Event) (s : State) : Option State :=
  match e with
  | .setInput v => if s.inputDisabled then none else some { s with inputValue := v }
  | .clickSend now => if s.sendDisabled then none else some (sendQuestionStart now s)
  | .pressKey key now => if s.inputDisabled then none else some (handleKeypress key now s)
  | .clickReload => if s.reloadDisabled then none else some (reloadStart s)
  | .askResponse o =>
    match s.pendingAsk with
    | some (_, now) => some (askResolve now o s)
    | none => none
  | .reloadResponse o => if s.pendingReload then some (reloadResolve o s) else none

/-- The states the controller can be in, starting from the freshly loaded
page. -/
inductive Reachable : State → Prop
  | init : Reachable initState
  | step {s s' : State} (e : Event) : Reachable s → stepFn e s = some s' → Reachable s'

/-- The disablement bookkeeping the script maintains: while a question is
in flight the input and the send control are disabled, and while a reload
is in flight the reload control is disabled. -/
def DisableInv (s : State) : Prop :=
  (s.pendingAsk.isSome = true → s.inputDisabled = true ∧ s.sendDisabled = true) ∧
  (s.pendingReload = true → s.reloadDisabled = true)

/-- A reachable state with a reload and a question simultaneously in
flight: type a question, click reload (which leaves the send control
enabled), then click send. -/
def bothInFlight : State :=
  sendQuestionStart 7 (reloadStart { initState with inputValue := "q" })

/-- A state whose question input holds text with surrounding whitespace. -/
def rawInputState : State := { initState with inputValue := " hi " }

/-- A state whose stats display shows the count of the last successful
stats response. -/
def statsShownState : State :=
  { initState with stats := "42 sections de documentation disponibles" }

/-! ## Helper lemmas -/

theorem splitNl_ne_nil (cs : List Char) : splitNl cs ≠ [] := by
  cases cs with
  | nil => simp [splitNl]
  | cons c cs =>
    simp only [splitNl]
    split
    · simp
    · split <;> simp

theorem joinWith_cons_of_ne_nil (sep : List Char) (a : List Char) (l : List (List Char))
    (h : l ≠ []) : joinWith sep (a :: l) = a ++ sep ++ joinWith sep l := by
  cases l with
  | nil => exact absurd rfl h
  | cons b l => rfl

theorem renderNewlines_eq_joinWith (cs : List Char) :
    renderNewlines cs = joinWith brTag (splitNl cs) := by
  induction cs with
  | nil => rfl
  | cons c cs ih =>
    by_cases h : c = '\n'
    · subst h
      rw [renderNewlines, if_pos rfl, splitNl, if_pos rfl,
        joinWith_cons_of_ne_nil _ _ _ (splitNl_ne_nil cs), ih]
      simp
    · obtain ⟨seg, segs, heq⟩ := List.exists_cons_of_ne_nil (splitNl_ne_nil cs)
      rw [renderNewlines, if_neg h, splitNl, if_neg h, heq, ih, heq]
      cases segs with
      | nil => rfl
      | cons b l => rfl

theorem joinWith_nl_splitNl (cs : List Char) :
    joinWith ['\n'] (splitNl cs) = cs := by
  induction cs with
  | nil => rfl
  | cons c cs ih =>
    by_cases h : c = '\n'
    · subst h
      rw [splitNl, if_pos rfl, joinWith_cons_of_ne_nil _ _ _ (splitNl_ne_nil cs), ih]
      simp
    · obtain ⟨seg, segs, heq⟩ := List.exists_cons_of_ne_nil (splitNl_ne_nil cs)
      rw [splitNl, if_neg h, heq]
      rw [heq] at ih
      cases segs with
      | nil =>
        simpa [joinWith] using ih
      | cons b l =>
        rw [joinWith_cons_of_ne_nil _ _ _ (by simp)] at ih ⊢
        rw [List.cons_append, List.cons_append, ih]

theorem splitNl_no_newline (cs : List Char) :
    ∀ seg ∈ splitNl cs, '\n' ∉ seg := by
  induction cs with
  | nil =>
    intro seg hseg
    simp [splitNl] at hseg
    simp [hseg]
  | cons c cs ih =>
    intro seg hseg
    by_cases h : c = '\n'
    · subst h
      rw [splitNl, if_pos rfl] at hseg
      rcases List.mem_cons.mp hseg with h1 | h1
      · simp [h1]
      · exact ih seg h1
    · obtain ⟨seg0, segs, heq⟩ := List.exists_cons_of_ne_nil (splitNl_ne_nil cs)
      rw [splitNl, if_neg h, heq] at hseg
      rcases List.mem_cons.mp hseg with h1 | h1
      · subst h1
        intro hmem
        rcases List.mem_cons.mp hmem with h2 | h2
        · exact h h2.symm
        · exact ih seg0 (heq ▸ List.mem_cons_self seg0 segs) h2
      · exact ih seg (heq ▸ List.mem_cons_of_mem seg0 h1)

theorem removeFirstById_of_not_mem (i : Nat) (l : List Message)
    (h : ∀ m ∈ l, m.msgId ≠ some i) : removeFirstById i l = l := by
  induction l with
  | nil => rfl
  | cons m rest ih =>
    rw [removeFirstById, if_neg (h m (List.mem_cons_self m rest)),
      ih fun x hx => h x (List.mem_cons_of_mem m hx)]

theorem removeFirstById_append (i : Nat) (xs ys : List Message)
    (h : ∀ m ∈ xs, m.msgId ≠ some i) :
    removeFirstById i (xs ++ ys) = xs ++ removeFirstById i ys := by
  induction xs with
  | nil => rfl
  | cons m rest ih =>
    rw [List.cons_append, removeFirstById, if_neg (h m (List.mem_cons_self m rest)),
      ih fun x hx => h x (List.mem_cons_of_mem m hx), List.cons_append]

theorem mkMessage_msgId_none (k : MsgKind) (c : String) :
    (mkMessage k c none).msgId = none := rfl

theorem mkMessage_msgId_of_ne_zero (k : MsgKind) (c : String) (n : Nat) (h : n ≠ 0) :
    (mkMessage k c (some n)).msgId = some n := by
  simp [mkMessage, idTruthy, h]

/-! ## Claim theorems -/

/-- Claim C6: for every input whose trimmed value is empty, `sendQuestion`
returns before any side effect: the state is untouched (no log entry, the
controls keep their prior flags) and the effect trace is empty, so no
network request is issued. -/
theorem sendQuestion_empty_noop (now : Nat) (s : State) (h : jsTrim s.inputValue = "") :
    sendQuestionStart now s = s ∧ sendQuestionEffects now s = [] := by
  constructor
  · simp [sendQuestionStart, h]
  · simp [sendQuestionEffects, h]

theorem sendQuestion_empty_noop_witness :
    sendQuestionStart 7 { initState with inputValue := "   " } =
      { initState with inputValue := "   " } ∧
    sendQuestionEffects 7 { initState with inputValue := "   " } = [] :=
  sendQuestion_empty_noop 7 { initState with inputValue := "   " } (by decide)

/-- Claim C7: `addMessage` renders a text by substituting each newline with
the `<br>` tag: the rendering joins exactly the newline-free segments of
the original text with `<br>`, rejoining those segments with the newline
recovers the original text (so no segment is lost or reordered), and no
segment retains a newline. -/
theorem addMessage_newline_segments (cs : List Char) :
    render (String.mk cs) = String.mk (joinWith brTag (splitNl cs)) ∧
    joinWith ['\n'] (splitNl cs) = cs ∧
    ∀ seg ∈ splitNl cs, '\n' ∉ seg := by
  refine ⟨?_, joinWith_nl_splitNl cs, splitNl_no_newline cs⟩
  show String.mk (renderNewlines cs) = _
  rw [renderNewlines_eq_joinWith]

theorem addMessage_newline_segments_witness :
    render (String.mk ['a', '\n', 'b']) =
      String.mk (joinWith brTag (splitNl ['a', '\n', 'b'])) ∧
    joinWith ['\n'] (splitNl ['a', '\n', 'b']) = ['a', '\n', 'b'] ∧
    '\n' ∉ (['a'] : List Char) :=
  ⟨(addMessage_newline_segments ['a', '\n', 'b']).1,
   (addMessage_newline_segments ['a', '\n', 'b']).2.1,
   (addMessage_newline_segments ['a', '\n', 'b']).2.2 ['a'] (by decide)⟩

/-- Claim C9: the keypress listener invokes `sendQuestion` exactly when the
pressed key is Enter, so keyboard submission is the same state transformer
as clicking the send control, and any other key leaves the state
untouched. -/
theorem enter_key_submits (key : String) (now : Nat) (s : State) :
    handleKeypress "Enter" now s = handleSendClick now s ∧
    (key ≠ "Enter" → handleKeypress key now s = s) := by
  constructor
  · rfl
  · intro h
    simp [handleKeypress, h]

theorem enter_key_submits_witness :
    handleKeypress "Enter" 5 initState = handleSendClick 5 initState ∧
    handleKeypress "a" 5 initState = initState :=
  ⟨(enter_key_submits "a" 5 initState).1,
   (enter_key_submits "a" 5 initState).2 (by decide)⟩

/-- Claim C10: `addMessage` assigns the lookup id only for a truthy
correlation id: a missing id and the falsy id `0` yield an entry without a
lookup id (while any nonzero id is kept), and `removeMessage 0` is a no-op
on a log extended with such an entry, so that entry can never be located
or removed. -/
theorem addMessage_zero_id_unremovable (kind : MsgKind) (content : String) (n : Nat)
    (s : State) (hn : n ≠ 0) (hlog : ∀ m ∈ s.log, m.msgId ≠ some 0) :
    (mkMessage kind content none).msgId = none ∧
    (mkMessage kind content (some 0)).msgId = none ∧
    (mkMessage kind content (some n)).msgId = some n ∧
    removeMessage 0 (addMessage kind content (some 0) s) =
      addMessage kind content (some 0) s := by
  refine ⟨rfl, rfl, mkMessage_msgId_of_ne_zero kind content n hn, ?_⟩
  have hall : ∀ m ∈ (addMessage kind content (some 0) s).log, m.msgId ≠ some 0 := by
    intro m hm
    simp only [addMessage, List.mem_append, List.mem_singleton] at hm
    rcases hm with hm | hm
    · exact hlog m hm
    · subst hm
      simp [mkMessage, idTruthy]
  simp only [removeMessage]
  rw [removeFirstById_of_not_mem _ _ hall]

theorem addMessage_zero_id_unremovable_witness :
    (mkMessage .system "x" none).msgId = none ∧
    (mkMessage .system "x" (some 0)).msgId = none ∧
    (mkMessage .system "x" (some 7)).msgId = some 7 ∧
    removeMessage 0 (addMessage .system "x" (some 0) initState) =
      addMessage .system "x" (some 0) initState :=
  addMessage_zero_id_unremovable .system "x" 7 initState (by decide)
    (by intro m hm; simp [initState] at hm)

/-- Claim C8: `reloadDocuments` disables the reload control and relabels it
to the in-progress label for the duration of the request, and every
outcome branch of the fetch (success, application-level failure, network
failure) re-enables it and restores the original label. -/
theorem reload_control_lifecycle (s : State) (o : ReloadOutcome) :
    (reloadStart s).reloadDisabled = true ∧
    (reloadStart s).reloadLabel = "Chargement en cours..." ∧
    (reloadResolve o (reloadStart s)).reloadDisabled = false ∧
    (reloadResolve o (reloadStart s)).reloadLabel = "Recharger la documentation" := by
  cases o with
  | response d => exact ⟨rfl, rfl, rfl, rfl⟩
  | networkError => exact ⟨rfl, rfl, rfl, rfl⟩

/-- Claim C1: for every non-empty trimmed question, submission disables the
question input and the send control, and every outcome branch of the
`/api/ask` fetch (success, application-level error, network failure)
re-enables both exactly once — a single unconditional finalization in each
handler — and returns focus to the input field. -/
theorem sendQuestion_finalization (now : Nat) (s : State) (o : AskOutcome)
    (h : jsTrim s.inputValue ≠ "") :
    (sendQuestionStart now s).inputDisabled = true ∧
    (sendQuestionStart now s).sendDisabled = true ∧
    (askResolve now o (sendQuestionStart now s)).inputDisabled = false ∧
    (askResolve now o (sendQuestionStart now s)).sendDisabled = false ∧
    (askResolve now o (sendQuestionStart now s)).focused = true := by
  refine ⟨?_, ?_, ?_, ?_, ?_⟩
  · simp [sendQuestionStart, addMessage, h]
  · simp [sendQuestionStart, addMessage, h]
  · cases o <;> rfl
  · cases o <;> rfl
  · cases o <;> rfl

theorem sendQuestion_finalization_witness :
    (sendQuestionStart 7 { initState with inputValue := "q" }).inputDisabled = true ∧
    (sendQuestionStart 7 { initState with inputValue := "q" }).sendDisabled = true ∧
    (askResolve 7 .networkError
      (sendQuestionStart 7 { initState with inputValue := "q" })).inputDisabled = false ∧
    (askResolve 7 .networkError
      (sendQuestionStart 7 { initState with inputValue := "q" })).sendDisabled = false ∧
    (askResolve 7 .networkError
      (sendQuestionStart 7 { initState with inputValue := "q" })).focused = true :=
  sendQuestion_finalization 7 { initState with inputValue := "q" } .networkError (by decide)

/-- Claim C4 (code behaviour at the failing input): when the reload
response reports `success:false` and carries no `sections_count` field,
the `.then` handler still runs the unconditional stats update, so the
stats display — previously showing the count of the last successful
response — is overwritten with the interpolation of the missing field,
`"undefined sections de documentation disponibles"`, instead of staying
unchanged as the claim states. -/
theorem reload_failure_overwrites_stats :
    (reloadResolve (.response { success := false, sections_count := none })
      (reloadStart statsShownState)).stats =
      "undefined sections de documentation disponibles" ∧
    (reloadResolve (.response { success := false, sections_count := none })
      (reloadStart statsShownState)).stats ≠ statsShownState.stats := by
  exact ⟨rfl, by decide⟩

/-- Claim C3 counterexample: with the input `" hi "` (non-empty once
trimmed), the first side effect of `sendQuestion` appends a user message
with the trimmed text `"hi"`, and no effect of the call appends a user
message carrying the raw text `" hi "` — the claim's "raw question text"
does not hold. -/
theorem sendQuestion_raw_text_counterexample :
    jsTrim " hi " = "hi" ∧
    sendQuestionEffects 7 rawInputState =
      [ .appendMsg (mkMessage .user "hi" none),
        .setInputValue "",
        .setInputDisabled true,
        .setSendDisabled true,
        .appendMsg (mkMessage .assistant "Recherche en cours..." (some 7)),
        .postAsk "hi" ] ∧
    Effect.appendMsg (mkMessage .user " hi " none) ∉ sendQuestionEffects 7 rawInputState := by
  refine ⟨by decide, by decide, by decide⟩

/-- Claim C3 (amended): for every submission with non-empty trimmed input,
`sendQuestion` performs its side effects in this order: (1) append a user
message with the trimmed question text; (2) clear and disable the input
field and disable the send control; (3) append the placeholder assistant
message tagged with the `Date.now()` correlation id and reading
"Recherche en cours..."; (4) issue the POST whose JSON body carries the
trimmed question.  Interpreting that effect trace over the state coincides
with the state transformer of the call. -/
theorem sendQuestion_effect_order (now : Nat) (s : State) (h : jsTrim s.inputValue ≠ "") :
    sendQuestionEffects now s =
      [ .appendMsg (mkMessage .user (jsTrim s.inputValue) none),
        .setInputValue "",
        .setInputDisabled true,
        .setSendDisabled true,
        .appendMsg (mkMessage .assistant "Recherche en cours..." (some now)),
        .postAsk (jsTrim s.inputValue) ] ∧
    applyEffects now (sendQuestionEffects now s) s = sendQuestionStart now s := by
  constructor
  · simp [sendQuestionEffects, h]
  · cases s with
    | mk log inputValue a b c d e f g hh =>
      simp [sendQuestionEffects, sendQuestionStart, applyEffects, applyEffect, addMessage, h]

theorem sendQuestion_effect_order_witness :
    sendQuestionEffects 7 { initState with inputValue := "q" } =
      [ .appendMsg (mkMessage .user "q" none),
        .setInputValue "",
        .setInputDisabled true,
        .setSendDisabled true,
        .appendMsg (mkMessage .assistant "Recherche en cours..." (some 7)),
        .postAsk "q" ] ∧
    applyEffects 7 (sendQuestionEffects 7 { initState with inputValue := "q" })
      { initState with inputValue := "q" } =
      sendQuestionStart 7 { initState with inputValue := "q" } :=
  sendQuestion_effect_order 7 { initState with inputValue := "q" } (by decide)

/-- Claim C2: for every non-empty trimmed input, the whole
submit-and-resolve cycle appends to the log exactly one user entry
(carrying the trimmed question) and exactly one terminal entry — the
assistant entry with the server-provided answer on `success:true`, the
system entry `"Erreur: "` plus the server-provided error or the generic
default on `success:false`, the generic connection-error system entry on
network failure — and the "Recherche en cours..." placeholder is removed
before the terminal entry is appended, so it never survives the handler. -/
theorem sendQuestion_log_appends (now : Nat) (s : State) (o : AskOutcome)
    (hq : jsTrim s.inputValue ≠ "") (hnow : now ≠ 0)
    (hfresh : ∀ m ∈ s.log, m.msgId ≠ some now) :
    (askResolve now o (sendQuestionStart now s)).log =
      s.log ++
        [ mkMessage .user (jsTrim s.inputValue) none,
          match o with
          | .response d =>
            if d.success then mkMessage .assistant d.answer none
            else mkMessage .system ("Erreur: " ++ jsOr d.error "Problème inconnu") none
          | .networkError =>
            mkMessage .system "Erreur de connexion. Veuillez réessayer." none ] := by
  have hu : (mkMessage .user (jsTrim s.inputValue) none).msgId = none := rfl
  have hp : (mkMessage .assistant "Recherche en cours..." (some now)).msgId = some now :=
    mkMessage_msgId_of_ne_zero _ _ now hnow
  have hstart : (sendQuestionStart now s).log =
      s.log ++ [mkMessage .user (jsTrim s.inputValue) none,
        mkMessage .assistant "Recherche en cours..." (some now)] := by
    simp [sendQuestionStart, addMessage, hq]
  have hrem : removeFirstById now (sendQuestionStart now s).log =
      s.log ++ [mkMessage .user (jsTrim s.inputValue) none] := by
    rw [hstart, removeFirstById_append now s.log _ hfresh]
    rw [removeFirstById, if_neg (by rw [hu]; simp)]
    rw [removeFirstById, if_pos hp]
  cases o with
  | response d =>
    by_cases hd : d.success
    · simp [askResolve, removeMessage, addMessage, hrem, hd]
    · simp [askResolve, removeMessage, addMessage, hrem, hd]
  | networkError =>
    simp [askResolve, removeMessage, addMessage, hrem]

theorem sendQuestion_log_appends_witness :
    (askResolve 7 (.response { success := true, answer := "42", error := none })
      (sendQuestionStart 7 { initState with inputValue := "What is X?" })).log =
      { initState with inputValue := "What is X?" }.log ++
        [ mkMessage .user (jsTrim "What is X?") none, mkMessage .assistant "42" none ] :=
  sendQuestion_log_appends 7 { initState with inputValue := "What is X?" }
    (.response { success := true, answer := "42", error := none })
    (by decide) (by decide) (by intro m hm; simp [initState] at hm)

/-! ## The disablement invariant of the event system -/

theorem sendQuestionStart_disableInv (now : Nat) (s : State) (h : DisableInv s) :
    DisableInv (sendQuestionStart now s) := by
  by_cases hq : jsTrim s.inputValue = ""
  · simpa [sendQuestionStart, hq] using h
  · constructor
    · intro _
      constructor <;> simp [sendQuestionStart, addMessage, hq]
    · intro hr
      have : s.pendingReload = true := by
        simpa [sendQuestionStart, addMessage, hq] using hr
      have := h.2 this
      simp [sendQuestionStart, addMessage, hq, this]

theorem reloadStart_disableInv (s : State) (h : DisableInv s) :
    DisableInv (reloadStart s) := by
  constructor
  · intro hr
    have : s.pendingAsk.isSome = true := by
      simpa [reloadStart, addMessage] using hr
    have h2 := h.1 this
    constructor <;> simp [reloadStart, addMessage, h2.1, h2.2]
  · intro _
    simp [reloadStart, addMessage]

theorem askResolve_disableInv (now : Nat) (o : AskOutcome) (s : State) (h : DisableInv s) :
    DisableInv (askResolve now o s) := by
  cases o with
  | response d =>
    constructor
    · intro hr
      simp [askResolve] at hr
    · intro hr
      have : s.pendingReload = true := by
        by_cases hd : d.success <;>
          simpa [askResolve, removeMessage, addMessage, hd] using hr
      have := h.2 this
      by_cases hd : d.success <;> simp [askResolve, removeMessage, addMessage, hd, this]
  | networkError =>
    constructor
    · intro hr
      simp [askResolve] at hr
    · intro hr
      have : s.pendingReload = true := by
        simpa [askResolve, removeMessage, addMessage] using hr
      have := h.2 this
      simp [askResolve, removeMessage, addMessage, this]

theorem reloadResolve_disableInv (o : ReloadOutcome) (s : State) (h : DisableInv s) :
    DisableInv (reloadResolve o s) := by
  cases o with
  | response d =>
    constructor
    · intro hr
      have : s.pendingAsk.isSome = true := by
        by_cases hd : d.success <;> simpa [reloadResolve, addMessage, hd] using hr
      have h2 := h.1 this
      by_cases hd : d.success <;>
        simp [reloadResolve, addMessage, hd, h2.1, h2.2]
    · intro hr
      simp [reloadResolve] at hr
  | networkError =>
    constructor
    · intro hr
      have : s.pendingAsk.isSome = true := by
        simpa [reloadResolve, addMessage] using hr
      have h2 := h.1 this
      simp [reloadResolve, addMessage, h2.1, h2.2]
    · intro hr
      simp [reloadResolve] at hr

theorem stepFn_disableInv {s s' : State} (e : Event) (h : DisableInv s)
    (hs : stepFn e s = some s') : DisableInv s' := by
  cases e with
  | setInput v =>
    simp only [stepFn] at hs
    split at hs
    · simp at hs
    · injection hs with hs
      subst hs
      exact h
  | clickSend now =>
    simp only [stepFn] at hs
    split at hs
    · simp at hs
    · injection hs with hs
      subst hs
      exact sendQuestionStart_disableInv now s h
  | pressKey key now =>
    simp only [stepFn] at hs
    split at hs
    · simp at hs
    · injection hs with hs
      subst hs
      by_cases hk : key = "Enter"
      · simpa [handleKeypress, hk] using sendQuestionStart_disableInv now s h
      · simpa [handleKeypress, hk] using h
  | clickReload =>
    simp only [stepFn] at hs
    split at hs
    · simp at hs
    · injection hs with hs
      subst hs
      exact reloadStart_disableInv s h
  | askResponse o =>
    simp only [stepFn] at hs
    split at hs
    · injection hs with hs
      subst hs
      exact askResolve_disableInv _ o s h
    · simp at hs
  | reloadResponse o =>
    simp only [stepFn] at hs
    split at hs
    · injection hs with hs
      subst hs
      exact reloadResolve_disableInv o s h
    · simp at hs

theorem reachable_disableInv (s : State) (h : Reachable s) : DisableInv s := by
  induction h with
  | init => constructor <;> simp [initState, DisableInv]
  | step e hr hs ih => exact stepFn_disableInv e ih hs

theorem bothInFlight_reachable : Reachable bothInFlight :=
  Reachable.step (.clickSend 7)
    (Reachable.step .clickReload
      (Reachable.step (.setInput "q") Reachable.init rfl) rfl) rfl

/-- Claim C5 counterexample: the state `bothInFlight` is reachable by
typing a question, clicking the reload control and then clicking the send
control — `reloadDocuments` disables only the reload control, leaving the
send control usable — and in it a question POST and a reload POST are in
flight simultaneously, refuting "at most one backend request is in
flight at every reachable state". -/
theorem single_flight_counterexample :
    Reachable bothInFlight ∧
    bothInFlight.pendingAsk.isSome = true ∧ bothInFlight.pendingReload = true :=
  ⟨bothInFlight_reachable, by decide, by decide⟩

/-- Claim C5 (amended): UI disablement serializes requests of the same
kind only: in every reachable state, while a question POST is in flight
neither a send-control click nor a keypress on the question input can
fire (both controls are disabled), and while a reload POST is in flight
the reload control cannot fire; a question and a reload may nevertheless
be in flight simultaneously. -/
theorem single_flight_same_kind (s : State) (now : Nat) (key : String)
    (h : Reachable s) :
    (s.pendingAsk.isSome = true →
      stepFn (.clickSend now) s = none ∧ stepFn (.pressKey key now) s = none) ∧
    (s.pendingReload = true → stepFn .clickReload s = none) := by
  obtain ⟨h1, h2⟩ := reachable_disableInv s h
  constructor
  · intro hp
    obtain ⟨hi, hsend⟩ := h1 hp
    exact ⟨by simp [stepFn, hsend], by simp [stepFn, hi]⟩
  · intro hp
    simp [stepFn, h2 hp]

theorem single_flight_same_kind_witness :
    ((bothInFlight.pendingAsk.isSome = true →
        stepFn (.clickSend 9) bothInFlight = none ∧
          stepFn (.pressKey "a" 9) bothInFlight = none) ∧
      (bothInFlight.pendingReload = true → stepFn .clickReload bothInFlight = none)) :=
  single_flight_same_kind bothInFlight 9 "a" bothInFlight_reachable
